import Mathlib

/-!
A verification development for the parameterized-computation cache of
`src/streamlit/pendulum_perf.py` (driven-pendulum visualizer).

The Python module is a straight-line script over Streamlit session state.  The
embedding below translates its cache/scheduler core:

* `create_params_hash` (lines 59-62): the fingerprint of a parameter set.  The
  `hashlib.md5` primitive is an external library digest and is passed in as an
  abstract function `md5 : String → String`; everything the repository itself
  computes (the `f"{num}_{eps:.2f}_{max_t:.1f}_{quality}"` format string) is
  modelled concretely.  Python floats are modelled as rationals, and the
  `:.2f` / `:.1f` fixed-point formats as rounding to the scaled integer.
* `generate_initial_conditions_optimized` (lines 72-85): the `count ≤ 1`
  branch is translated literally; the golden-ratio spiral branch (which uses
  `sqrt`/`sin` on floats) is abstracted as a parameter `spiral`.
* `solve_trajectories_optimized` (lines 89-128): the chunked loop, the
  per-trajectory `try`/`except` and the `sol.success and len(sol.t) > 10`
  quality filter are translated literally; the `scipy.integrate.solve_ivp`
  call is an external collaborator modelled as
  `solve : ℚ → ℚ → Quality → (ℚ × ℚ) → Option SolveOutput`
  (arguments: driving amplitude, time horizon, quality level, initial state;
  `none` models an exception, which line 126 swallows).  The `t_eval` grid,
  `rtol` and method strings of lines 94-116 are consumed only by `solve_ivp`
  and are therefore folded into that abstract collaborator.
* The `@st.cache_data(ttl=1800)` decorator on the solver (line 88) is
  modelled by `solve_trajectories_cached`: Streamlit memoizes on the exact
  argument tuple with a time-to-live, running the body only on a miss.
* `should_recompute` / `should_compute` (lines 131-149) and the compute /
  reuse branch with its session-state update (lines 152-173), the empty-batch
  warning (lines 176, 259-260) and the cache-status badge (line 250) are
  translated into the step function `runStep` over `SessionState`.

`time.time()` is modelled by an explicit `now : ℚ` supplied to each step (the
script reads the clock twice, at lines 133 and 166, within milliseconds; the
model uses one instant for both reads).
-/

attribute [local semireducible] Rat.add Rat.sub Rat.mul Rat.inv Rat.ofScientific

namespace PendulumPerf

/-- The three values of the `computation_quality` selectbox (line 44-47). -/
inductive Quality where
  | Fast
  | Balanced
  | High
deriving DecidableEq

/-- The string carried by the selectbox, used both as the cache key component
and as the `quality_settings` lookup key. -/
def Quality.key : Quality → String
  | .Fast => "Fast"
  | .Balanced => "Balanced"
  | .High => "High"

/-- Decimal digit string of `m`, left-padded with zeros to `d` digits; the
fractional part of a Python fixed-point format. -/
def natToPadded (d m : ℕ) : String :=
  String.mk (List.replicate (d - (toString m).length) '0') ++ toString m

/-- Rendering of an integer amount `n` of `10^(-d)` units as a fixed-point
decimal string, e.g. `fmtInt 2 50 = "0.50"` and `fmtInt 1 150 = "15.0"`. -/
def fmtInt (d : ℕ) (n : ℤ) : String :=
  (if n < 0 then "-" else "")
    ++ toString (n.natAbs / 10 ^ d) ++ "." ++ natToPadded d (n.natAbs % 10 ^ d)

/-- Python `f"{x:.df}"` fixed-point formatting of the rational value `x`:
round `x` to `d` decimal places and render.  (On binary floats Python rounds
the nearest-double decimal expansion; on the rational model the rounding is
`round (x * 10 ^ d)`.) -/
def fmtFixed (d : ℕ) (x : ℚ) : String :=
  fmtInt d (round (x * (10 : ℚ) ^ d))

/-- `create_params_hash` (lines 59-62):
`params_str = f"{num_traj}_{eps:.2f}_{max_t:.1f}_{quality}"` digested with
`hashlib.md5(...).hexdigest()`, the digest being the abstract `md5`. -/
def create_params_hash (md5 : String → String) (num_traj : ℤ) (eps max_t : ℚ)
    (quality : String) : String :=
  md5 (toString num_traj ++ "_" ++ fmtFixed 2 eps ++ "_" ++ fmtFixed 1 max_t
    ++ "_" ++ quality)

/-- `generate_initial_conditions_optimized` (lines 72-85).  The
`num_trajectories <= 1` guard returns the fixed pair `[[0.1, 0.1]]` before any
lattice/spiral computation; the `num ≥ 2` golden-ratio spiral is the abstract
`spiral`.  The Python function is total on every integer input (the guard
catches all `num ≤ 1`, including zero and negatives). -/
def generate_initial_conditions_optimized (spiral : ℤ → List (ℚ × ℚ))
    (num_trajectories : ℤ) : List (ℚ × ℚ) :=
  if num_trajectories ≤ 1 then [(0.1, 0.1)] else spiral num_trajectories

/-- What one `solve_ivp` call yields: the `sol.success` flag and the rows
`sol.t`, `sol.y[0]`, `sol.y[1]`. -/
structure SolveOutput where
  success : Bool
  t : List ℚ
  x : List ℚ
  v : List ℚ
deriving DecidableEq

/-- One stored trajectory record (lines 119-124): the dict
`{'t': sol.t, 'x': sol.y[0], 'v': sol.y[1], 'initial': y0}`. -/
structure Trajectory where
  t : List ℚ
  x : List ℚ
  v : List ℚ
  initial : ℚ × ℚ
deriving DecidableEq

/-- The external collaborators of the script: the md5 digest, the golden-ratio
spiral branch of the initial-condition generator, and the `solve_ivp`
integrator.  `solve eps max_t q y0 = none` models a raised exception (caught
at line 125); `some out` models a returned solution object. -/
structure Env where
  md5 : String → String
  spiral : ℤ → List (ℚ × ℚ)
  solve : ℚ → ℚ → Quality → (ℚ × ℚ) → Option SolveOutput

/-- The body of the inner loop (lines 108-126): call the solver inside
`try`/`except`, keep the result only when `sol.success and len(sol.t) > 10`. -/
def solveOne (env : Env) (eps max_t : ℚ) (q : Quality) (y0 : ℚ × ℚ) :
    Option Trajectory :=
  match env.solve eps max_t q y0 with
  | none => none
  | some sol =>
      if sol.success = true ∧ 10 < sol.t.length then
        some ⟨sol.t, sol.x, sol.v, y0⟩
      else none

/-- Fuelled body of the chunk loop.  Each pass advances `chunk_start` by
`cs ≥ 1` (the guard also keeps Python's `range` step positive), so `n - s`
bounds the number of remaining passes; `chunkloop` below supplies exactly
that fuel, which therefore never runs out before the `chunk_start < n` test
fails (fuel `0` forces `n ≤ s`, where the loop is finished anyway —
`chunkloop_nil`/`chunkloop_pos` prove the loop equations). -/
def chunkloopGo (f : (ℚ × ℚ) → Option Trajectory) (ics : List (ℚ × ℚ))
    (n cs : ℕ) : ℕ → ℕ → List Trajectory
  | 0, _ => []
  | fuel + 1, s =>
      if s < n ∧ 0 < cs then
        ((ics.drop s).take (min (s + cs) n - s)).filterMap f
          ++ chunkloopGo f ics n cs fuel (s + cs)
      else []

/-- The chunked loop of lines 104-126:
`for chunk_start in range(0, n, cs)` with
`chunk_ics = initial_conditions[chunk_start : min(chunk_start+cs, n)]`,
appending the surviving trajectories of each chunk in order. -/
def chunkloop (f : (ℚ × ℚ) → Option Trajectory) (ics : List (ℚ × ℚ))
    (n cs s : ℕ) : List Trajectory :=
  chunkloopGo f ics n cs (n - s) s

/-- `solve_trajectories_optimized` generalized over the chunk size, to state
that the chunk size has no effect on the output. -/
def solve_trajectories_chunked (env : Env) (cs : ℕ) (num_trajectories : ℤ)
    (eps max_t : ℚ) (q : Quality) : List Trajectory :=
  chunkloop (solveOne env eps max_t q)
    (generate_initial_conditions_optimized env.spiral num_trajectories)
    num_trajectories.toNat cs 0

/-- `solve_trajectories_optimized` (lines 89-128) with the source's
`chunk_size = min(10, num_trajectories)` (line 102).  (For
`num_trajectories ≤ 0` the Python `range` with step `≤ 0` raises; the spec's
`ParameterSet` precondition `count ≥ 1` excludes those inputs and the model
returns `[]` there.) -/
def solve_trajectories_optimized (env : Env) (num_trajectories : ℤ)
    (eps max_t : ℚ) (q : Quality) : List Trajectory :=
  solve_trajectories_chunked env (min 10 num_trajectories.toNat)
    num_trajectories eps max_t q

/-- Reference loop following the spec's words in section 4.4: "The solver is
invoked once per initial condition", in sequence, with no chunking.  Stated
for comparison with the chunked implementation. -/
def unchunked_solve_spec (env : Env) (num_trajectories : ℤ) (eps max_t : ℚ)
    (q : Quality) : List Trajectory :=
  (generate_initial_conditions_optimized env.spiral num_trajectories).filterMap
    (solveOne env eps max_t q)

/-- The session state of lines 12-17: `last_computation_time`,
`cached_trajectories` (`None` until first stored computation) and
`cached_params_hash`. -/
structure SessionState where
  last_computation_time : ℚ
  cached_trajectories : Option (List Trajectory)
  cached_params_hash : Option String
deriving DecidableEq

/-- The initial session state (lines 12-17): time `0`, both caches `None`. -/
def initState : SessionState := ⟨0, none, none⟩

/-- The exact argument tuple `(num_trajectories, epsilon, max_time,
quality_key)` on which `st.cache_data` keys the solver memo. -/
abbrev CacheKey := ℤ × ℚ × ℚ × String

/-- One entry of the `st.cache_data` memo attached to
`solve_trajectories_optimized`. -/
structure CacheEntry where
  key : CacheKey
  value : List Trajectory
  createdAt : ℚ
deriving DecidableEq

/-- The `st.cache_data` memo for the solver, newest entry first. -/
abbrev DataCache := List CacheEntry

/-- `st.cache_data` lookup: a hit requires the exact key and an age within
the 1800-second time-to-live of line 88. -/
def lookupValid (dc : DataCache) (now : ℚ) (k : CacheKey) :
    Option (List Trajectory) :=
  match dc.find? (fun e => decide (e.key = k)) with
  | some e => if now - e.createdAt ≤ 1800 then some e.value else none
  | none => none

/-- Outcome of calling the decorated solver: the value, whether the function
body actually ran (a memo miss), how many times `solve_ivp` was invoked, and
the updated memo. -/
structure CallResult where
  value : List Trajectory
  ran : Bool
  solverCalls : ℕ
  dc : DataCache
deriving DecidableEq

/-- The call `solve_trajectories_optimized(num, eps, max_t, quality)` through
its `@st.cache_data(ttl=1800)` decorator (line 88): on a valid hit the stored
batch is returned and the body is not run; on a miss the body runs (invoking
the solver once per visited initial condition) and the result is stored. -/
def solve_trajectories_cached (env : Env) (dc : DataCache) (now : ℚ)
    (num : ℤ) (eps max_t : ℚ) (q : Quality) : CallResult :=
  match lookupValid dc now (num, eps, max_t, q.key) with
  | some v => ⟨v, false, 0, dc⟩
  | none =>
      ⟨solve_trajectories_optimized env num eps max_t q, true,
        ((generate_initial_conditions_optimized env.spiral num).take
          num.toNat).length,
        ⟨(num, eps, max_t, q.key),
          solve_trajectories_optimized env num eps max_t q, now⟩ :: dc⟩

/-- `should_recompute` (lines 131-142): parameters changed (hash differs from
the stored one, `None` compares unequal to every string) and either more than
0.5 seconds elapsed since the last computation or manual mode. -/
def should_recompute (env : Env) (st : SessionState) (now : ℚ) (num : ℤ)
    (eps max_t : ℚ) (q : Quality) (auto_compute : Bool) : Bool :=
  let params_hash := create_params_hash env.md5 num eps max_t q.key
  let params_changed := st.cached_params_hash != some params_hash
  let time_elapsed := now - st.last_computation_time
  params_changed && (decide ((0.5 : ℚ) < time_elapsed) || !auto_compute)

/-- Lines 145-149: in manual (non-auto) mode `should_compute` is exactly the
compute button; in auto mode it is `should_recompute()`. -/
def should_compute (env : Env) (st : SessionState) (now : ℚ) (num : ℤ)
    (eps max_t : ℚ) (q : Quality) (auto_compute compute_button : Bool) : Bool :=
  if !auto_compute then compute_button
  else should_recompute env st now num eps max_t q auto_compute

/-- Everything one script run reports: the updated session state and solver
memo, the batch handed to the presentation layer, whether the solver body ran
and how many solver invocations it made, whether the empty-batch warning of
lines 259-260 fired, and the line-250 cache-status badge
(`statusFresh = true` renders "Fresh", `false` renders "Cached"). -/
structure StepResult where
  state : SessionState
  dc : DataCache
  trajectories : List Trajectory
  bodyRan : Bool
  solverCalls : ℕ
  warning : Bool
  statusFresh : Bool
deriving DecidableEq

/-- One run of the script's compute/display section (lines 145-176 and
250/259-260): if `should_compute` holds or nothing is cached yet, call the
(memoized) solver and overwrite `cached_trajectories`, `cached_params_hash`
and `last_computation_time`; otherwise reuse the session cache unchanged. -/
def runStep (env : Env) (dc : DataCache) (st : SessionState) (now : ℚ)
    (num : ℤ) (eps max_t : ℚ) (q : Quality)
    (auto_compute compute_button : Bool) : StepResult :=
  let sc := should_compute env st now num eps max_t q auto_compute compute_button
  if sc || st.cached_trajectories.isNone then
    let call := solve_trajectories_cached env dc now num eps max_t q
    ⟨⟨now, some call.value, some (create_params_hash env.md5 num eps max_t q.key)⟩,
      call.dc, call.value, call.ran, call.solverCalls, call.value.isEmpty, sc⟩
  else
    ⟨st, dc, st.cached_trajectories.getD [], false, 0,
      (st.cached_trajectories.getD []).isEmpty, sc⟩

/-! ### Concrete instances used by witnesses and counterexamples -/

/-- Collaborators for witnesses: identity digest, empty spiral, a solver that
always raises. -/
def envW : Env := ⟨fun s => s, fun _ => [], fun _ _ _ _ => none⟩

/-- An eleven-point time grid, the smallest passing the `len(sol.t) > 10`
quality filter. -/
def ts11 : List ℚ := [0, 1, 2, 3, 4, 5, 6, 7, 8, 9, 10]

/-- Collaborators whose solver always succeeds with an eleven-point result. -/
def envOk : Env := ⟨fun s => s, fun _ => [], fun _ _ _ _ => some ⟨true, ts11, ts11, ts11⟩⟩

/-- Eight concrete initial conditions for the 3-of-8-failures scenario. -/
def ics8 : List (ℚ × ℚ) := [(0, 0), (1, 0), (2, 0), (3, 0), (4, 0), (5, 0), (6, 0), (7, 0)]

/-- Collaborators for the 3-of-8-failures scenario: the spiral yields `ics8`
at count 8, and the solver succeeds exactly on the five initial conditions
with first component at most 4. -/
def env5 : Env :=
  ⟨fun s => s, fun n => if n = 8 then ics8 else [],
    fun _ _ _ y0 => if y0.1 ≤ 4 then some ⟨true, ts11, ts11, ts11⟩ else none⟩

/-- A one-point batch to pre-populate caches with. -/
def trajW : Trajectory := ⟨[0], [0], [0], (0, 0)⟩

/-- Session state as left by a computation at
`(num, eps, max_t, quality) = (1, 0.5, 15, "Balanced")` finishing at time 0. -/
def stManual : SessionState :=
  ⟨0, some [trajW], some (create_params_hash (fun s => s) 1 0.5 15 "Balanced")⟩

/-- Solver memo as left by the same computation. -/
def dcManual : DataCache := [⟨(1, 0.5, 15, "Balanced"), [trajW], 0⟩]

/-! ### Loop lemmas -/

/-- Out of fuel, the loop body yields nothing. -/
theorem chunkloopGo_zero (f : (ℚ × ℚ) → Option Trajectory)
    (ics : List (ℚ × ℚ)) (n cs s : ℕ) :
    chunkloopGo f ics n cs 0 s = [] := rfl

/-- One unfolding of the fuelled loop body. -/
theorem chunkloopGo_succ (f : (ℚ × ℚ) → Option Trajectory)
    (ics : List (ℚ × ℚ)) (n cs fuel s : ℕ) :
    chunkloopGo f ics n cs (fuel + 1) s =
      if s < n ∧ 0 < cs then
        ((ics.drop s).take (min (s + cs) n - s)).filterMap f
          ++ chunkloopGo f ics n cs fuel (s + cs)
      else [] := rfl

/-- The fuelled chunk loop does not depend on the fuel, as long as the fuel
bounds the remaining iteration count. -/
theorem chunkloopGo_fuel_irrel (f : (ℚ × ℚ) → Option Trajectory)
    (ics : List (ℚ × ℚ)) (n cs : ℕ) :
    ∀ fuel₁ fuel₂ s, n - s ≤ fuel₁ → n - s ≤ fuel₂ →
      chunkloopGo f ics n cs fuel₁ s = chunkloopGo f ics n cs fuel₂ s := by
  intro fuel₁
  induction fuel₁ with
  | zero =>
      intro fuel₂ s h1 h2
      cases fuel₂ with
      | zero => rfl
      | succ m =>
          rw [chunkloopGo_zero, chunkloopGo_succ,
            if_neg (by omega : ¬ (s < n ∧ 0 < cs))]
  | succ m ih =>
      intro fuel₂ s h1 h2
      cases fuel₂ with
      | zero =>
          rw [chunkloopGo_zero, chunkloopGo_succ,
            if_neg (by omega : ¬ (s < n ∧ 0 < cs))]
      | succ m' =>
          rw [chunkloopGo_succ, chunkloopGo_succ]
          by_cases hq : s < n ∧ 0 < cs
          · rw [if_pos hq, if_pos hq, ih m' (s + cs) (by omega) (by omega)]
          · rw [if_neg hq, if_neg hq]

/-- Loop equation: with the guard false the chunk loop yields nothing. -/
theorem chunkloop_nil (f : (ℚ × ℚ) → Option Trajectory) (ics : List (ℚ × ℚ))
    (n cs s : ℕ) (h : ¬ (s < n ∧ 0 < cs)) :
    chunkloop f ics n cs s = [] := by
  unfold chunkloop
  cases hns : n - s with
  | zero => rfl
  | succ m => rw [chunkloopGo_succ, if_neg h]

/-- Loop equation: with the guard true the chunk loop emits the surviving
trajectories of the chunk `[s : min (s+cs) n]` and continues at `s + cs`. -/
theorem chunkloop_pos (f : (ℚ × ℚ) → Option Trajectory) (ics : List (ℚ × ℚ))
    (n cs s : ℕ) (hsn : s < n) (hcs : 0 < cs) :
    chunkloop f ics n cs s =
      ((ics.drop s).take (min (s + cs) n - s)).filterMap f
        ++ chunkloop f ics n cs (s + cs) := by
  unfold chunkloop
  cases hns : n - s with
  | zero => omega
  | succ m =>
      rw [chunkloopGo_succ, if_pos ⟨hsn, hcs⟩,
        chunkloopGo_fuel_irrel f ics n cs m (n - (s + cs)) (s + cs) (by omega)
          (by omega)]

/-- Flattening: for every positive chunk size the chunk loop starting at `s`
is the plain filterMap over the slice `[s : n]` — chunking is invisible in
the output. -/
theorem chunkloop_eq_filterMap (f : (ℚ × ℚ) → Option Trajectory)
    (ics : List (ℚ × ℚ)) (n cs : ℕ) (hcs : 0 < cs) :
    ∀ s, chunkloop f ics n cs s = ((ics.drop s).take (n - s)).filterMap f := by
  have key : ∀ m s, n - s ≤ m →
      chunkloop f ics n cs s = ((ics.drop s).take (n - s)).filterMap f := by
    intro m
    induction m with
    | zero =>
        intro s hs
        rw [chunkloop_nil f ics n cs s (by omega)]
        have h0 : n - s = 0 := by omega
        rw [h0]
        simp
    | succ m ih =>
        intro s hs
        by_cases hlt : s < n
        · rw [chunkloop_pos f ics n cs s hlt hcs, ih (s + cs) (by omega),
            ← List.filterMap_append]
          congr 1
          have hdd : ics.drop (s + cs) = (ics.drop s).drop cs :=
            (List.drop_drop cs s ics).symm
          rw [hdd]
          rcases le_or_lt (s + cs) n with hle | hgt
          · have h1 : min (s + cs) n - s = cs := by omega
            have h2 : n - s = cs + (n - (s + cs)) := by omega
            rw [h1, h2, List.take_add]
          · have h1 : min (s + cs) n - s = n - s := by omega
            have h2 : n - (s + cs) = 0 := by omega
            rw [h1, h2]
            simp
        · rw [chunkloop_nil f ics n cs s (by omega)]
          have h0 : n - s = 0 := by omega
          rw [h0]
          simp
  intro s
  exact key (n - s) s le_rfl

/-- Every trajectory the chunk loop emits comes from a successful filtered
solver call on some initial condition. -/
theorem mem_chunkloop (f : (ℚ × ℚ) → Option Trajectory) (ics : List (ℚ × ℚ))
    (n cs : ℕ) :
    ∀ s traj, traj ∈ chunkloop f ics n cs s → ∃ y0, f y0 = some traj := by
  have key : ∀ m s traj, n - s ≤ m → traj ∈ chunkloop f ics n cs s →
      ∃ y0, f y0 = some traj := by
    intro m
    induction m with
    | zero =>
        intro s traj hs hmem
        rw [chunkloop_nil f ics n cs s (by omega)] at hmem
        exact absurd hmem (List.not_mem_nil traj)
    | succ m ih =>
        intro s traj hs hmem
        by_cases hq : s < n ∧ 0 < cs
        · rw [chunkloop_pos f ics n cs s hq.1 hq.2] at hmem
          rcases List.mem_append.mp hmem with hmem | hmem
          · rcases List.mem_filterMap.mp hmem with ⟨y0, _, hy⟩
            exact ⟨y0, hy⟩
          · exact ih (s + cs) traj (by omega) hmem
        · rw [chunkloop_nil f ics n cs s hq] at hmem
          exact absurd hmem (List.not_mem_nil traj)
  intro s traj
  exact key (n - s) s traj le_rfl

/-- The number of kept entries of a filterMap is the count of inputs on which
the function succeeds. -/
theorem length_filterMap_eq_countP (f : (ℚ × ℚ) → Option Trajectory)
    (l : List (ℚ × ℚ)) :
    (l.filterMap f).length = l.countP (fun a => (f a).isSome) := by
  induction l with
  | nil => rfl
  | cons a l ih =>
      rw [List.filterMap_cons, List.countP_cons]
      cases hfa : f a <;> simp [hfa, ih]

/-- Successes and failures of the per-item solver partition the input list. -/
theorem countP_isSome_add_countP_isNone (f : (ℚ × ℚ) → Option Trajectory)
    (l : List (ℚ × ℚ)) :
    l.countP (fun a => (f a).isSome) + l.countP (fun a => (f a).isNone) =
      l.length := by
  induction l with
  | nil => rfl
  | cons a l ih =>
      rw [List.countP_cons, List.countP_cons, List.length_cons]
      cases hfa : f a <;> simp [hfa] <;> omega

/-! ### Step lemmas -/

/-- A step that enters the compute branch (the flag holds, or nothing is
cached yet) with a solver-memo miss: the body runs, invoking the solver once
per visited initial condition, and all three session-state fields are
overwritten. -/
theorem runStep_miss (env : Env) (dc : DataCache) (st : SessionState)
    (now : ℚ) (num : ℤ) (eps max_t : ℚ) (q : Quality) (a b : Bool)
    (hcond : should_compute env st now num eps max_t q a b = true ∨
      st.cached_trajectories = none)
    (hmiss : lookupValid dc now (num, eps, max_t, q.key) = none) :
    runStep env dc st now num eps max_t q a b =
      ⟨⟨now, some (solve_trajectories_optimized env num eps max_t q),
          some (create_params_hash env.md5 num eps max_t q.key)⟩,
        ⟨(num, eps, max_t, q.key),
          solve_trajectories_optimized env num eps max_t q, now⟩ :: dc,
        solve_trajectories_optimized env num eps max_t q, true,
        ((generate_initial_conditions_optimized env.spiral num).take
          num.toNat).length,
        (solve_trajectories_optimized env num eps max_t q).isEmpty,
        should_compute env st now num eps max_t q a b⟩ := by
  have hor : (should_compute env st now num eps max_t q a b
      || st.cached_trajectories.isNone) = true := by
    rcases hcond with h | h
    · rw [h, Bool.true_or]
    · rw [h]
      simp
  simp only [runStep]
  rw [hor, if_pos rfl]
  simp only [solve_trajectories_cached, hmiss]

/-- A step that enters the compute branch with a valid solver-memo hit: the
stored batch is reused, the body does not run and the solver is not invoked;
the session state is still overwritten (lines 162-166 run either way). -/
theorem runStep_hit (env : Env) (dc : DataCache) (st : SessionState)
    (now : ℚ) (num : ℤ) (eps max_t : ℚ) (q : Quality) (a b : Bool)
    (V : List Trajectory)
    (hcond : should_compute env st now num eps max_t q a b = true ∨
      st.cached_trajectories = none)
    (hhit : lookupValid dc now (num, eps, max_t, q.key) = some V) :
    runStep env dc st now num eps max_t q a b =
      ⟨⟨now, some V, some (create_params_hash env.md5 num eps max_t q.key)⟩,
        dc, V, false, 0, V.isEmpty,
        should_compute env st now num eps max_t q a b⟩ := by
  have hor : (should_compute env st now num eps max_t q a b
      || st.cached_trajectories.isNone) = true := by
    rcases hcond with h | h
    · rw [h, Bool.true_or]
    · rw [h]
      simp
  simp only [runStep]
  rw [hor, if_pos rfl]
  simp only [solve_trajectories_cached, hhit]

/-- A step that skips computing (flag false, batch cached): nothing changes
and the prior batch is shown. -/
theorem runStep_skip (env : Env) (dc : DataCache) (st : SessionState)
    (now : ℚ) (num : ℤ) (eps max_t : ℚ) (q : Quality) (a b : Bool)
    (B : List Trajectory)
    (hsc : should_compute env st now num eps max_t q a b = false)
    (hB : st.cached_trajectories = some B) :
    runStep env dc st now num eps max_t q a b =
      ⟨st, dc, B, false, 0, B.isEmpty, false⟩ := by
  have hor : (should_compute env st now num eps max_t q a b
      || st.cached_trajectories.isNone) = false := by
    rw [hsc, hB]
    rfl
  simp only [runStep]
  rw [hor, if_neg (by simp), hsc, hB]
  rfl

/-! ### Claims -/

/-- Claim C1: for every digest function, two parameter sets whose driving
amplitudes round to the same 2-decimal value, whose time horizons round to
the same 1-decimal value, and whose count and quality level are identical
produce byte-identical fingerprints; and repeated calls of
`create_params_hash` on the same parameter set return the same value — the
embedding is a pure function of its arguments. -/
theorem fingerprint_trunc_stable (md5 : String → String) (n1 n2 : ℤ)
    (e1 e2 t1 t2 : ℚ) (q1 q2 : String) (hn : n1 = n2)
    (he : round (e1 * (10 : ℚ) ^ (2 : ℕ)) = round (e2 * (10 : ℚ) ^ (2 : ℕ)))
    (ht : round (t1 * (10 : ℚ) ^ (1 : ℕ)) = round (t2 * (10 : ℚ) ^ (1 : ℕ)))
    (hq : q1 = q2) :
    create_params_hash md5 n1 e1 t1 q1 = create_params_hash md5 n2 e2 t2 q2 ∧
      create_params_hash md5 n1 e1 t1 q1 = create_params_hash md5 n1 e1 t1 q1 := by
  subst hn
  subst hq
  refine ⟨?_, rfl⟩
  unfold create_params_hash fmtFixed
  rw [he, ht]

/-- Witness for C1: amplitudes 0.501 and 0.5 both round to "0.50", so the
fingerprints agree. -/
theorem fingerprint_trunc_stable_witness :
    create_params_hash (fun s => s) 8 0.501 15 "Balanced" =
      create_params_hash (fun s => s) 8 0.5 15 "Balanced" :=
  (fingerprint_trunc_stable (fun s => s) 8 8 0.501 0.5 15 15 "Balanced"
    "Balanced" rfl (by decide) rfl rfl).1

/-- Claim C2: with a batch already cached, an auto-mode candidate recompute
(fingerprint differing from the stored one) is suppressed and the cached
batch reused whenever at most 0.5 time units elapsed since the last
computation; and in manual mode the automatic debounced recompute never
fires — without the explicit trigger the step does not compute.  (A cached
batch is assumed present, as the claim speaks of reusing the cached value of
a prior computation.) -/
theorem debounce_suppresses_recompute (env : Env) (dc : DataCache)
    (st : SessionState) (now : ℚ) (num : ℤ) (eps max_t : ℚ) (q : Quality)
    (auto_compute compute_button : Bool) (B : List Trajectory)
    (hB : st.cached_trajectories = some B)
    (hcase :
      (auto_compute = true ∧
        st.cached_params_hash ≠
          some (create_params_hash env.md5 num eps max_t q.key) ∧
        now - st.last_computation_time ≤ 0.5) ∨
      (auto_compute = false ∧ compute_button = false)) :
    (runStep env dc st now num eps max_t q auto_compute
        compute_button).bodyRan = false ∧
      (runStep env dc st now num eps max_t q auto_compute
        compute_button).trajectories = B ∧
      (runStep env dc st now num eps max_t q auto_compute
        compute_button).state = st := by
  have hsc : should_compute env st now num eps max_t q auto_compute
      compute_button = false := by
    rcases hcase with ⟨ha, _hneq, hle⟩ | ⟨ha, hb⟩
    · subst ha
      unfold should_compute should_recompute
      have hd : decide ((0.5 : ℚ) < now - st.last_computation_time) = false :=
        decide_eq_false (not_lt.mpr hle)
      simp [hd]
    · subst ha
      subst hb
      rfl
  rw [runStep_skip env dc st now num eps max_t q auto_compute compute_button B
    hsc hB]
  exact ⟨rfl, rfl, rfl⟩

/-- Witness for C2: auto mode, a stale stored fingerprint, 0.25 elapsed of
the required 0.5 — the step reuses the cached batch and changes nothing. -/
theorem debounce_suppresses_recompute_witness :
    (runStep envW [] ⟨0, some [], some "stale"⟩ 0.25 8 0.5 15 .Balanced true
        false).bodyRan = false ∧
      (runStep envW [] ⟨0, some [], some "stale"⟩ 0.25 8 0.5 15 .Balanced true
        false).trajectories = [] ∧
      (runStep envW [] ⟨0, some [], some "stale"⟩ 0.25 8 0.5 15 .Balanced true
        false).state = ⟨0, some [], some "stale"⟩ :=
  debounce_suppresses_recompute envW [] ⟨0, some [], some "stale"⟩ 0.25 8 0.5
    15 .Balanced true false [] rfl (Or.inl ⟨rfl, by decide, by decide⟩)

/-- Claim C3 fails on the code: at amplitude 0.501 the current fingerprint is
byte-identical to the fingerprint stored for the still-valid cached result
computed at amplitude 0.5 (both format as "0.50"), the solver memo still
holds that result within its time-to-live — yet the manual trigger runs the
solver body and invokes the solver once, because the memo keys on the exact
argument tuple and `0.501 ≠ 0.5`, and the session-level fingerprint check is
skipped entirely when the button forces `should_compute`. -/
theorem manual_trigger_fingerprint_cex :
    create_params_hash envW.md5 1 0.501 15 Quality.Balanced.key =
        create_params_hash envW.md5 1 0.5 15 Quality.Balanced.key ∧
      stManual.cached_params_hash =
        some (create_params_hash envW.md5 1 0.501 15 Quality.Balanced.key) ∧
      lookupValid dcManual 1 (1, 0.5, 15, Quality.Balanced.key) =
        some [trajW] ∧
      (runStep envW dcManual stManual 1 1 0.501 15 .Balanced false
        true).bodyRan = true ∧
      (runStep envW dcManual stManual 1 1 0.501 15 .Balanced false
        true).solverCalls = 1 := by
  decide

/-- Claim C3 (amended): every activation of the manual trigger bypasses the
debounce gate — the compute flag is set whatever the elapsed time or the
stored fingerprint — and what it does not bypass is the exact-argument
result-cache check: when the solver memo holds a still-valid entry for the
exact current argument tuple, that batch is reused and the solver is not
re-invoked.  (Equality of truncated fingerprints alone does not prevent
re-invocation, per the counterexample.) -/
theorem manual_trigger_exact_cache_reuse (env : Env) (dc : DataCache)
    (st : SessionState) (now : ℚ) (num : ℤ) (eps max_t : ℚ) (q : Quality)
    (V : List Trajectory)
    (hhit : lookupValid dc now (num, eps, max_t, q.key) = some V) :
    should_compute env st now num eps max_t q false true = true ∧
      (runStep env dc st now num eps max_t q false true).bodyRan = false ∧
      (runStep env dc st now num eps max_t q false true).solverCalls = 0 ∧
      (runStep env dc st now num eps max_t q false true).trajectories = V := by
  have hsc : should_compute env st now num eps max_t q false true = true := rfl
  rw [runStep_hit env dc st now num eps max_t q false true V (Or.inl hsc) hhit]
  exact ⟨hsc, rfl, rfl, rfl⟩

/-- Witness for the amended C3: a manual trigger at the exact cached argument
tuple reuses the memoized batch with zero solver invocations. -/
theorem manual_trigger_exact_cache_reuse_witness :
    should_compute envW stManual 1 1 0.5 15 .Balanced false true = true ∧
      (runStep envW dcManual stManual 1 1 0.5 15 .Balanced false
        true).bodyRan = false ∧
      (runStep envW dcManual stManual 1 1 0.5 15 .Balanced false
        true).solverCalls = 0 ∧
      (runStep envW dcManual stManual 1 1 0.5 15 .Balanced false
        true).trajectories = [trajW] :=
  manual_trigger_exact_cache_reuse envW dcManual stManual 1 1 0.5 15 .Balanced
    [trajW] (by decide)

/-- Claim C4: assuming the scipy contract that a returned solution carries
equally long rows, every trajectory stored in the returned batch has its
three sequences of equal length, and that length exceeds the minimum quality
threshold of 10 points; solver results failing the filter (unsuccessful,
too short, or raising) are never stored. -/
theorem stored_trajectory_invariant (env : Env) (num : ℤ) (eps max_t : ℚ)
    (q : Quality)
    (hsolver : ∀ y0 out, env.solve eps max_t q y0 = some out →
      out.t.length = out.x.length ∧ out.t.length = out.v.length)
    (traj : Trajectory)
    (htraj : traj ∈ solve_trajectories_optimized env num eps max_t q) :
    traj.t.length = traj.x.length ∧ traj.t.length = traj.v.length ∧
      10 < traj.t.length := by
  unfold solve_trajectories_optimized solve_trajectories_chunked at htraj
  rcases mem_chunkloop (solveOne env eps max_t q) _ _ _ 0 traj htraj with
    ⟨y0, hy⟩
  unfold solveOne at hy
  cases hsol : env.solve eps max_t q y0 with
  | none =>
      rw [hsol] at hy
      have hy' : (none : Option Trajectory) = some traj := hy
      cases hy'
  | some out =>
      rw [hsol] at hy
      have hy' : (if out.success = true ∧ 10 < out.t.length then
          some (Trajectory.mk out.t out.x out.v y0) else none) = some traj := hy
      split_ifs at hy' with hcond
      cases hy'
      rcases hsolver y0 out hsol with ⟨h1, h2⟩
      exact ⟨h1, h2, hcond.2⟩

/-- Witness for C4: with an always-succeeding eleven-point solver, the single
stored trajectory at count 1 satisfies the invariant. -/
theorem stored_trajectory_invariant_witness :
    (Trajectory.mk ts11 ts11 ts11 (0.1, 0.1)).t.length =
        (Trajectory.mk ts11 ts11 ts11 (0.1, 0.1)).x.length ∧
      (Trajectory.mk ts11 ts11 ts11 (0.1, 0.1)).t.length =
        (Trajectory.mk ts11 ts11 ts11 (0.1, 0.1)).v.length ∧
      10 < (Trajectory.mk ts11 ts11 ts11 (0.1, 0.1)).t.length :=
  stored_trajectory_invariant envOk 1 0.5 15 .Balanced
    (fun y0 out h => by
      have h2 : some (SolveOutput.mk true ts11 ts11 ts11) = some out := h
      cases h2
      exact ⟨rfl, rfl⟩)
    (Trajectory.mk ts11 ts11 ts11 (0.1, 0.1)) (by decide)

/-- Claim C5: per-trajectory failures are recovered locally — with 8 initial
conditions of which exactly 3 fail the per-item filter, the compute step
returns a batch of exactly 5 entries, the status badge reads Fresh, and the
empty-batch diagnostic does not fire: partial success is not a failure
state. -/
theorem partial_failure_keeps_batch (env : Env) (dc : DataCache)
    (st : SessionState) (now eps max_t : ℚ) (q : Quality)
    (auto_compute compute_button : Bool)
    (hlen : (generate_initial_conditions_optimized env.spiral 8).length = 8)
    (hfail : (generate_initial_conditions_optimized env.spiral 8).countP
        (fun y0 => (solveOne env eps max_t q y0).isNone) = 3)
    (hsc : should_compute env st now 8 eps max_t q auto_compute compute_button
        = true)
    (hmiss : lookupValid dc now (8, eps, max_t, q.key) = none) :
    (runStep env dc st now 8 eps max_t q auto_compute
        compute_button).trajectories.length = 5 ∧
      (runStep env dc st now 8 eps max_t q auto_compute
        compute_button).statusFresh = true ∧
      (runStep env dc st now 8 eps max_t q auto_compute
        compute_button).warning = false := by
  have hval : (solve_trajectories_optimized env 8 eps max_t q).length = 5 := by
    unfold solve_trajectories_optimized solve_trajectories_chunked
    rw [chunkloop_eq_filterMap (solveOne env eps max_t q)
      (generate_initial_conditions_optimized env.spiral 8) ((8 : ℤ).toNat)
      (min 10 (8 : ℤ).toNat) (by decide) 0]
    rw [List.drop_zero, Nat.sub_zero]
    have h8 : ((8 : ℤ).toNat) = 8 := rfl
    rw [h8, ← hlen, List.take_length, length_filterMap_eq_countP]
    have hpart := countP_isSome_add_countP_isNone (solveOne env eps max_t q)
      (generate_initial_conditions_optimized env.spiral 8)
    omega
  rw [runStep_miss env dc st now 8 eps max_t q auto_compute compute_button
    (Or.inl hsc) hmiss]
  refine ⟨hval, hsc, ?_⟩
  cases hv : solve_trajectories_optimized env 8 eps max_t q with
  | nil =>
      rw [hv] at hval
      exact absurd hval (by decide)
  | cons a l => rfl

/-- Witness for C5: the concrete 3-of-8-failures scenario yields a 5-entry
Fresh batch with no diagnostic. -/
theorem partial_failure_keeps_batch_witness :
    (runStep env5 [] initState 1 8 0.5 15 .Balanced false
        true).trajectories.length = 5 ∧
      (runStep env5 [] initState 1 8 0.5 15 .Balanced false
        true).statusFresh = true ∧
      (runStep env5 [] initState 1 8 0.5 15 .Balanced false
        true).warning = false :=
  partial_failure_keeps_batch env5 [] initState 1 0.5 15 .Balanced false true
    (by decide) (by decide) rfl rfl

/-- Claim C6: when every trajectory fails, the compute step still completes:
the emitted batch is empty, the empty-batch diagnostic fires, the
last-computation timestamp advances to the current time and the fingerprint
of the failing parameters is stored — so a later auto-mode step with the
identical parameters does not run the solver body again, whatever its time:
no tight retry loop. -/
theorem total_failure_advances_clock (env : Env) (dc : DataCache)
    (st : SessionState) (now : ℚ) (num : ℤ) (eps max_t : ℚ) (q : Quality)
    (auto_compute compute_button : Bool)
    (hfail : ∀ y0, solveOne env eps max_t q y0 = none)
    (hmiss : lookupValid dc now (num, eps, max_t, q.key) = none)
    (hgo : should_compute env st now num eps max_t q auto_compute
        compute_button = true ∨ st.cached_trajectories = none) :
    (runStep env dc st now num eps max_t q auto_compute
        compute_button).trajectories = [] ∧
      (runStep env dc st now num eps max_t q auto_compute
        compute_button).warning = true ∧
      (runStep env dc st now num eps max_t q auto_compute
        compute_button).state.last_computation_time = now ∧
      (runStep env dc st now num eps max_t q auto_compute
        compute_button).state.cached_params_hash =
        some (create_params_hash env.md5 num eps max_t q.key) ∧
      ∀ now2 b2, (runStep env
        (runStep env dc st now num eps max_t q auto_compute compute_button).dc
        (runStep env dc st now num eps max_t q auto_compute
          compute_button).state
        now2 num eps max_t q true b2).bodyRan = false := by
  have hempty : solve_trajectories_optimized env num eps max_t q = [] := by
    rw [List.eq_nil_iff_forall_not_mem]
    intro traj hmem
    unfold solve_trajectories_optimized solve_trajectories_chunked at hmem
    rcases mem_chunkloop (solveOne env eps max_t q) _ _ _ 0 traj hmem with
      ⟨y0, hy⟩
    rw [hfail y0] at hy
    cases hy
  rw [runStep_miss env dc st now num eps max_t q auto_compute compute_button
    hgo hmiss]
  refine ⟨hempty, ?_, rfl, rfl, ?_⟩
  · rw [hempty]
    rfl
  · intro now2 b2
    have hsc2 : should_compute env
        ⟨now, some (solve_trajectories_optimized env num eps max_t q),
          some (create_params_hash env.md5 num eps max_t q.key)⟩
        now2 num eps max_t q true b2 = false := by
      unfold should_compute should_recompute
      simp
    rw [runStep_skip env _ _ now2 num eps max_t q true b2
      (solve_trajectories_optimized env num eps max_t q) hsc2 rfl]

/-- Witness for C6: with the always-raising solver and an initial session, a
compute at time 1 emits the empty batch, warns, stamps time 1, stores the
fingerprint, and a later identical-parameter auto step at time 2 is inert. -/
theorem total_failure_advances_clock_witness :
    (runStep envW [] initState 1 1 0.5 15 .Balanced true
        false).trajectories = [] ∧
      (runStep envW [] initState 1 1 0.5 15 .Balanced true
        false).warning = true ∧
      (runStep envW [] initState 1 1 0.5 15 .Balanced true
        false).state.last_computation_time = 1 ∧
      (runStep envW [] initState 1 1 0.5 15 .Balanced true
        false).state.cached_params_hash =
        some (create_params_hash envW.md5 1 0.5 15 Quality.Balanced.key) ∧
      (runStep envW
        (runStep envW [] initState 1 1 0.5 15 .Balanced true false).dc
        (runStep envW [] initState 1 1 0.5 15 .Balanced true false).state
        2 1 0.5 15 .Balanced true false).bodyRan = false := by
  have h := total_failure_advances_clock envW [] initState 1 1 0.5 15
    .Balanced true false (fun y0 => rfl) rfl (Or.inr rfl)
  exact ⟨h.1, h.2.1, h.2.2.1, h.2.2.2.1, h.2.2.2.2 2 false⟩

/-- Claim C7: for every parameter set with `count ≥ 1` whose generator
produces exactly `count` initial conditions (the generator's contract), the
chunked loop equals — in content and order — the spec's unchunked
once-per-initial-condition loop, for EVERY chunk size ≥ 1; in particular the
source's `chunk_size = min(10, count)` loop does, so the chunk size has no
behavioral effect on the output. -/
theorem chunked_loop_matches_unchunked (env : Env) (num : ℤ) (eps max_t : ℚ)
    (q : Quality) (hnum : 1 ≤ num)
    (hlen : (generate_initial_conditions_optimized env.spiral num).length =
      num.toNat) :
    (∀ cs : ℕ, 0 < cs →
      solve_trajectories_chunked env cs num eps max_t q =
        unchunked_solve_spec env num eps max_t q) ∧
      solve_trajectories_optimized env num eps max_t q =
        unchunked_solve_spec env num eps max_t q := by
  have main : ∀ cs : ℕ, 0 < cs →
      solve_trajectories_chunked env cs num eps max_t q =
        unchunked_solve_spec env num eps max_t q := by
    intro cs hcs
    unfold solve_trajectories_chunked unchunked_solve_spec
    rw [chunkloop_eq_filterMap (solveOne env eps max_t q) _ num.toNat cs hcs 0,
      List.drop_zero, Nat.sub_zero, ← hlen, List.take_length]
  refine ⟨main, ?_⟩
  unfold solve_trajectories_optimized
  exact main (min 10 num.toNat) (by omega)

/-- Witness for C7 at count 1: the source's chunked solver equals the
unchunked reference loop. -/
theorem chunked_loop_matches_unchunked_witness :
    solve_trajectories_optimized envW 1 0.5 15 .Balanced =
      unchunked_solve_spec envW 1 0.5 15 .Balanced :=
  (chunked_loop_matches_unchunked envW 1 0.5 15 .Balanced (by decide)
    (by decide)).2

/-- Claim C8: called with count 1, the initial-condition generator returns
exactly the single fixed pair `(0.1, 0.1)` — whatever the lattice/spiral
branch would compute, it is not consulted. -/
theorem generate_one_fixed_pair (spiral : ℤ → List (ℚ × ℚ)) :
    generate_initial_conditions_optimized spiral 1 = [(0.1, 0.1)] := rfl

/-- Claim C9: in manual mode with no explicit trigger after a parameter
change, the step computes nothing: the solver body does not run, no solver
invocation happens, the session state (cached batch, cached fingerprint,
last computation time) and the solver memo are unchanged, and the
presentation layer receives the prior batch.  (A prior batch is assumed
cached, as the claim speaks of continuing to show it.) -/
theorem manual_mode_without_trigger_is_inert (env : Env) (dc : DataCache)
    (st : SessionState) (now : ℚ) (num : ℤ) (eps max_t : ℚ) (q : Quality)
    (B : List Trajectory) (hB : st.cached_trajectories = some B) :
    (runStep env dc st now num eps max_t q false false).solverCalls = 0 ∧
      (runStep env dc st now num eps max_t q false false).bodyRan = false ∧
      (runStep env dc st now num eps max_t q false false).state = st ∧
      (runStep env dc st now num eps max_t q false false).dc = dc ∧
      (runStep env dc st now num eps max_t q false false).trajectories = B := by
  rw [runStep_skip env dc st now num eps max_t q false false B rfl hB]
  exact ⟨rfl, rfl, rfl, rfl, rfl⟩

/-- Witness for C9: manual mode, amplitude changed from the cached 0.5 to
0.7, no button press — everything stays as it was. -/
theorem manual_mode_without_trigger_is_inert_witness :
    (runStep envW dcManual stManual 2 1 0.7 15 .Balanced false
        false).solverCalls = 0 ∧
      (runStep envW dcManual stManual 2 1 0.7 15 .Balanced false
        false).bodyRan = false ∧
      (runStep envW dcManual stManual 2 1 0.7 15 .Balanced false
        false).state = stManual ∧
      (runStep envW dcManual stManual 2 1 0.7 15 .Balanced false
        false).dc = dcManual ∧
      (runStep envW dcManual stManual 2 1 0.7 15 .Balanced false
        false).trajectories = [trajW] :=
  manual_mode_without_trigger_is_inert envW dcManual stManual 2 1 0.7 15
    .Balanced [trajW] rfl

/-- Claim C10: for every integer count at most 1 — including 0 and negative
values, which the spec's precondition `count ≥ 1` excludes — the generator
returns exactly the single fixed pair; the guard precedes every other
computation, so the (total) function cannot fail on non-positive input. -/
theorem generate_nonpositive_fixed_pair (spiral : ℤ → List (ℚ × ℚ)) (n : ℤ)
    (hn : n ≤ 1) :
    generate_initial_conditions_optimized spiral n = [(0.1, 0.1)] := by
  unfold generate_initial_conditions_optimized
  rw [if_pos hn]

/-- Witness for C10 at count -5. -/
theorem generate_nonpositive_fixed_pair_witness :
    generate_initial_conditions_optimized (fun _ => []) (-5) = [(0.1, 0.1)] :=
  generate_nonpositive_fixed_pair (fun _ => []) (-5) (by decide)

end PendulumPerf
